import Mathlib

/-!
Verification of the transcode-job planner, size estimator, job supervisor and
accelerator probe of `video_cutter.py`.  The Python code is shallowly
embedded: the planned ffmpeg command line becomes a `List Arg` built by the
same branching as `VideoProcessor.run`, the UI state that feeds it becomes a
`CutterState` record, floats become rationals, and the external process is
abstracted by the data the supervisor actually consumes (its parsed
diagnostic lines and its exit code).
-/

namespace VC

/-- Accelerator selection offered by the gpu combo box
(`['CPU', 'NVIDIA', 'AMD', 'Intel']`, video_cutter.py line 656). -/
inductive GpuChoice
  | cpu | nvidia | amd | intel
deriving DecidableEq

/-- Output resolution selection offered by the resolution combo box
(`['原始', '4K', '2K', '1080p', '720p']`, line 673). -/
inductive ResChoice
  | original | r4k | r2k | r1080p | r720p
deriving DecidableEq

/-- Text of the gpu combo selection, as read by `process_video` (line 1070). -/
def gpuString : GpuChoice → String
  | .cpu => "CPU"
  | .nvidia => "NVIDIA"
  | .amd => "AMD"
  | .intel => "Intel"

/-- Resolution argument computed by `process_video` (lines 1058-1066): `none`
for the original setting, otherwise a fixed-width scale spec whose height
field `-1` asks the encoder to preserve the aspect ratio. -/
def resString : ResChoice → Option String
  | .original => none
  | .r4k => some "3840:-1"
  | .r2k => some "2560:-1"
  | .r1080p => some "1920:-1"
  | .r720p => some "1280:-1"

/-- One element of the video filter chain (lines 210-214). -/
inductive VFilter
  | scale (spec : String)
  | setpts (factor : ℚ)
deriving DecidableEq

/-- One argv token of the planned ffmpeg command.  Fixed tokens are `lit`;
tokens the code renders from numbers keep their numeric payload: `ratNum q`
embeds `str()` of a float, `natOpt n` embeds `str()` of an int that may be
`None`, `kval n` embeds the kbps value rendered with a trailing `k`,
`vfChain fs` embeds the comma-joined filter chain and `atempoArg q` embeds
the audio tempo filter spec. -/
inductive Arg
  | lit (s : String)
  | ratNum (q : ℚ)
  | natOpt (n : Option ℕ)
  | kval (n : ℕ)
  | vfChain (fs : List VFilter)
  | atempoArg (q : ℚ)
deriving DecidableEq

/-- Python truthiness of an optional integer (`None` and `0` are falsy). -/
def truthyOpt : Option ℕ → Bool
  | none => false
  | some n => n != 0

/-- Python truthiness of an optional string (`None` and the empty string are
falsy). -/
def truthyStr : Option String → Bool
  | none => false
  | some s => s != ""

/-- Hardware-decode hint emitted before the input (lines 160-165). -/
def hwArgs (gpu_vendor : String) : List Arg :=
  if gpu_vendor = "NVIDIA" then [.lit "-hwaccel", .lit "cuda"]
  else if gpu_vendor = "Intel" then [.lit "-hwaccel", .lit "qsv"]
  else if gpu_vendor = "AMD" then [.lit "-hwaccel", .lit "dxva2"]
  else []

/-- Vendor-specific encoder selection and quality-derived rate control
(lines 175-202).  Each vendor branch adds its rate-control flags only when
the bitrate field is falsy. -/
def encoderArgs (gpu_vendor : String) (quality : Option ℕ) (bitrate : Option ℕ) :
    List Arg :=
  if gpu_vendor = "NVIDIA" then
    [.lit "-c:v", .lit "h264_nvenc", .lit "-preset", .lit "p4"] ++
      (if truthyOpt bitrate then []
       else if quality = some 0 then
         [.lit "-rc", .lit "constqp", .lit "-qp", .lit "0"]
       else
         [.lit "-rc", .lit "vbr", .lit "-cq", .natOpt quality, .lit "-b:v", .lit "0"])
  else if gpu_vendor = "AMD" then
    [.lit "-c:v", .lit "h264_amf", .lit "-usage", .lit "transcoding"] ++
      (if truthyOpt bitrate then []
       else
         [.lit "-rc", .lit "cqp", .lit "-qp_i", .natOpt quality,
          .lit "-qp_p", .natOpt quality])
  else if gpu_vendor = "Intel" then
    [.lit "-c:v", .lit "h264_qsv", .lit "-preset", .lit "medium"] ++
      (if truthyOpt bitrate then []
       else
         [.lit "-global_quality", .natOpt (if quality = some 0 then some 1 else quality)])
  else
    [.lit "-c:v", .lit "libx264", .lit "-preset", .lit "medium"] ++
      (if truthyOpt bitrate then [] else [.lit "-crf", .natOpt quality])

/-- Explicit bitrate flags (lines 205-207), emitted when the bitrate field is
truthy. -/
def bitrateArgs : Option ℕ → List Arg
  | none => []
  | some n =>
    if n = 0 then []
    else [.lit "-b:v", .kval n, .lit "-maxrate", .kval n, .lit "-bufsize", .kval (n * 2)]

/-- Video filter chain (lines 210-214): an optional scale filter followed by
an optional presentation-timestamp scale of the inverse speed. -/
def vfilterChain (resolution : Option String) (speed : ℚ) : List VFilter :=
  (match resolution with
   | none => []
   | some r => if r = "" then [] else [.scale r]) ++
  (if speed ≠ 1 then [.setpts (1 / speed)] else [])

/-- The combined filter argument (lines 216-217), emitted only when at least
one filter is present. -/
def vfArgs (resolution : Option String) (speed : ℚ) : List Arg :=
  if vfilterChain resolution speed = [] then []
  else [.lit "-vf", .vfChain (vfilterChain resolution speed)]

/-- Fixed audio re-encode plus the tempo filter at non-unit speed
(lines 219-221). -/
def audioArgs (speed : ℚ) : List Arg :=
  [.lit "-c:a", .lit "aac", .lit "-b:a", .lit "192k"] ++
    (if speed ≠ 1 then [.lit "-af", .atempoArg speed] else [])

/-- Output frame-rate override (lines 223-224), emitted when the fps field is
truthy. -/
def fpsArgs : Option ℕ → List Arg
  | none => []
  | some f => if f = 0 then [] else [.lit "-r", .natOpt (some f)]

/-- Constructor parameters of `VideoProcessor` (lines 134-149). -/
structure VPJob where
  input_path : String
  output_path : String
  start_time : ℚ
  end_time : ℚ
  mode : String
  quality : Option ℕ
  fps : Option ℕ
  bitrate : Option ℕ
  output_format : String
  resolution : Option String
  gpu_vendor : String
  speed : ℚ
deriving DecidableEq

/-- The argv built by `VideoProcessor.run` (lines 157-227). -/
def buildCmd (j : VPJob) : List Arg :=
  [.lit "ffmpeg.exe"] ++ hwArgs j.gpu_vendor ++
    [.lit "-ss", .ratNum j.start_time, .lit "-i", .lit j.input_path,
     .lit "-t", .ratNum (j.end_time - j.start_time)] ++
    (if j.mode = "copy" then [.lit "-c", .lit "copy"]
     else
       encoderArgs j.gpu_vendor j.quality j.bitrate ++
       bitrateArgs j.bitrate ++
       vfArgs j.resolution j.speed ++
       audioArgs j.speed ++
       fpsArgs j.fps) ++
    [.lit "-y", .lit j.output_path]

/-- State of the `VideoCutter` window that feeds planning and estimation:
the loaded source, its probed bitrate, the range sliders (integer
milliseconds) and the widgets of the output settings panel. -/
structure CutterState where
  video_path : Option String
  video_bitrate : ℚ
  startSliderMs : ℕ
  endSliderMs : ℕ
  copyMode : Bool
  qualitySpin : ℕ
  fpsChecked : Bool
  fpsSpin : ℕ
  bitrateChecked : Bool
  bitrateSpin : ℕ
  speedSpin : ℚ
  resolutionChoice : ResChoice
  gpuChoice : GpuChoice
  outputFormat : String
deriving DecidableEq

/-- Job normalization of `VideoCutter.process_video` (lines 1037-1080):
validation of the range, then the copy-mode defaults (no quality, fps,
bitrate or resolution, CPU vendor, unit speed) or the advanced settings. -/
def process_video (st : CutterState) (output_path : String) : Option VPJob :=
  match st.video_path with
  | none => none
  | some p =>
    if p = "" then none
    else
      let start_time : ℚ := (st.startSliderMs : ℚ) / 1000
      let end_time : ℚ := (st.endSliderMs : ℚ) / 1000
      if end_time ≤ start_time then none
      else if output_path = "" then none
      else
        let mode := if st.copyMode then "copy" else "compress"
        some
          { input_path := p
            output_path := output_path
            start_time := start_time
            end_time := end_time
            mode := mode
            quality := if mode = "compress" then some st.qualitySpin else none
            fps := if mode = "compress" ∧ st.fpsChecked then some st.fpsSpin else none
            bitrate := if mode = "compress" ∧ st.bitrateChecked then some st.bitrateSpin else none
            output_format := st.outputFormat
            resolution := if mode = "compress" then resString st.resolutionChoice else none
            gpu_vendor := if mode = "compress" then gpuString st.gpuChoice else "CPU"
            speed := if mode = "compress" then st.speedSpin else 1 }

/-- Full planning pipeline: job normalization followed by argv construction. -/
def planJob (st : CutterState) (output_path : String) : Option (List Arg) :=
  (process_video st output_path).map buildCmd

/-- Resolution tier discount of the size estimator (lines 1026-1032). -/
def resFactor : ResChoice → ℚ
  | .r720p => 2 / 5
  | .r1080p => 3 / 5
  | .r2k => 4 / 5
  | _ => 1

/-- Size estimate of `VideoCutter.estimate_file_size` (lines 1003-1035), in
megabytes; `none` when no source is loaded or the probed bitrate is zero
(the code returns without updating the label in that case). -/
def estimate_file_size (st : CutterState) : Option ℚ :=
  if truthyStr st.video_path = false ∨ st.video_bitrate = 0 then none
  else
    let start : ℚ := (st.startSliderMs : ℚ) / 1000
    let stop : ℚ := (st.endSliderMs : ℚ) / 1000
    let speed : ℚ := if st.copyMode then 1 else st.speedSpin
    let duration : ℚ := max 0 ((stop - start) / speed)
    if duration = 0 then some 0
    else if st.copyMode then some (st.video_bitrate * duration / 8 / 1024)
    else
      let bitrate : ℚ :=
        (if st.bitrateChecked then (st.bitrateSpin : ℚ)
         else st.video_bitrate * (1 - (st.qualitySpin : ℚ) / 51 * (7 / 10))) *
          resFactor st.resolutionChoice
      some (bitrate * duration / 8 / 1024)

/-- An elapsed-time marker parsed from a diagnostic line: the code splits the
token after `time=` on colons into hour and minute integers and a
seconds-with-fraction field (lines 242-244). -/
structure TimeMark where
  h : ℕ
  m : ℕ
  s : ℚ
deriving DecidableEq

/-- Total elapsed seconds of a marker (line 244). -/
def TimeMark.elapsed (t : TimeMark) : ℚ := t.h * 3600 + t.m * 60 + t.s

/-- Python `int()` truncation toward zero on a rational. -/
def pyInt (q : ℚ) : ℤ := if q < 0 then ⌈q⌉ else ⌊q⌋

/-- Progress value computed from one diagnostic line (lines 239-250).  A line
is abstracted to its parse result: `some t` when it contains a `time=` marker
whose fields parse, `none` otherwise (lines without a marker, and parse
failures swallowed by the bare `except`).  The value is emitted whenever the
expected duration is positive; there is no comparison with previously
emitted values. -/
def progressOfLine (duration speed : ℚ) (line : Option TimeMark) : Option ℤ :=
  match line with
  | none => none
  | some t =>
    let expected := duration / speed
    if 0 < expected then some (min (pyInt (t.elapsed / expected * 100)) 100)
    else none

/-- The sequence of progress percentages emitted over a whole run
(lines 239-250). -/
def emittedProgress (duration speed : ℚ) (lines : List (Option TimeMark)) : List ℤ :=
  lines.filterMap (progressOfLine duration speed)

/-- Success message of the completion signal (line 255). -/
def successMsg : String := "影片剪輯完成！"

/-- Generic failure message of the completion signal (line 257). -/
def failMsg : String := "剪輯錯誤，請檢查設定或硬體支援。"

/-- Message reported when an exception is caught (line 260). -/
def excMsg (msg : String) : String := "錯誤: " ++ msg

/-- Completion signal payload chosen after `process.wait()` (lines 254-257):
a boolean success flag and a message; no other outcome channel exists. -/
def reportExit (returncode : ℤ) : Bool × String :=
  if returncode = 0 then (true, successMsg) else (false, failMsg)

/-- Abstract behaviour of the spawned external process as consumed by
`VideoProcessor.run`: either an exception is raised after some diagnostic
lines were streamed, or the process streams its lines and exits with a
status code. -/
inductive RunEnv
  | excRaised (lines : List (Option TimeMark)) (msg : String)
  | exited (returncode : ℤ) (lines : List (Option TimeMark))
deriving DecidableEq

/-- Model of `VideoProcessor.run` (lines 152-260): the emitted progress
sequence and the single completion signal.  The whole body is wrapped in a
try/except, so an exception also ends in exactly one completion signal. -/
def runJob (j : VPJob) (env : RunEnv) : List ℤ × (Bool × String) :=
  let duration := j.end_time - j.start_time
  match env with
  | .excRaised lines msg => (emittedProgress duration j.speed lines, (false, excMsg msg))
  | .exited rc lines => (emittedProgress duration j.speed lines, reportExit rc)

/-- Actions `VideoProcessor.stop` performs on the external process. -/
inductive SupAction
  | terminate
deriving DecidableEq

/-- Model of `VideoProcessor.stop` (lines 269-271): terminate the process
when one exists.  Nothing records that the run was cancelled. -/
def stopActions (process : Option ℕ) : List SupAction :=
  match process with
  | some _ => [.terminate]
  | none => []

/-- Result of one external process run inside `GPUCheckThread.run`: an exit
code with captured stdout and stderr, or an exception. -/
inductive ProcResult
  | exited (returncode : ℤ) (stdout stderr : String)
  | excRaised (msg : String)
deriving DecidableEq

/-- Environment of one `GPUCheckThread.run` invocation: the hardware-listing
query, whether the encoder executable was found, its directory (used only in
the warning line), and the three synthetic encode tests. -/
structure ProbeEnv where
  hwQuery : ProcResult
  ffmpegFound : Bool
  ffmpegDir : String
  nvidiaTest : ProcResult
  amdTest : ProcResult
  intelTest : ProcResult
deriving DecidableEq

/-- Python substring containment `needle in haystack` for a non-empty
needle, via `splitOn`. -/
def strContains (hay needle : String) : Bool := (hay.splitOn needle).length != 1

/-- Hardware listing section of the report (lines 44-61). -/
def hwSection (r : ProcResult) : List String :=
  "【硬體偵測】" ::
    (match r with
     | .exited rc out _ =>
       if rc = 0 then
         (((out.splitOn "\n").map String.trim).filter (fun l => l ≠ "")).map
           (fun g => "• " ++ g)
       else ["無法讀取硬體列表"]
     | .excRaised m => ["硬體讀取錯誤: " ++ m])

/-- Warning line when the encoder executable is absent (lines 65-66). -/
def ffmpegWarn (env : ProbeEnv) : List String :=
  if env.ffmpegFound then []
  else ["❌ 嚴重警告: 找不到 ffmpeg.exe！\n搜尋路徑: " ++ env.ffmpegDir]

/-- Availability classification of one synthetic encode test (line 90):
available exactly when the process exited with status 0. -/
def testOk : ProcResult → Bool
  | .exited rc _ _ => rc == 0
  | .excRaised _ => false

/-- Report lines produced for one vendor test (lines 84-100). -/
def vendorLine (vendor : String) (r : ProcResult) : List String :=
  match r with
  | .exited rc _ stderr =>
    if rc = 0 then ["✅ " ++ vendor ++ ": 支援 (可用)"]
    else
      let err_msg := if stderr ≠ "" then stderr.trim else "未知錯誤"
      if strContains err_msg "device not found" then
        ["❌ " ++ vendor ++ ": 未偵測到對應硬體"]
      else ["❌ " ++ vendor ++ ": 測試未通過"]
  | .excRaised _ => ["❌ " ++ vendor ++ ": 執行失敗"]

/-- The three vendor tests in loop order (lines 68-100). -/
def vendorReport (env : ProbeEnv) : List String :=
  vendorLine "NVIDIA" env.nvidiaTest ++ vendorLine "AMD" env.amdTest ++
    vendorLine "Intel" env.intelTest

/-- Vendors appended to `available_vendors`, in loop order (line 92). -/
def availableVendors (env : ProbeEnv) : List String :=
  (if testOk env.nvidiaTest then ["NVIDIA"] else []) ++
    (if testOk env.amdTest then ["AMD"] else []) ++
    (if testOk env.intelTest then ["Intel"] else [])

/-- Recommended vendor (lines 102-112): first of NVIDIA, AMD, Intel found
available, else CPU. -/
def recVendor (env : ProbeEnv) : String :=
  if "NVIDIA" ∈ availableVendors env then "NVIDIA"
  else if "AMD" ∈ availableVendors env then "AMD"
  else if "Intel" ∈ availableVendors env then "Intel"
  else "CPU"

/-- Recommendation section of the report (lines 103-114). -/
def recSection (env : ProbeEnv) : List String :=
  "\n【結果建議】" ::
    (if "NVIDIA" ∈ availableVendors env then
       ["★ 偵測到 NVIDIA 顯卡，已自動選擇最佳效能模式。"]
     else if "AMD" ∈ availableVendors env then
       ["★ 偵測到 AMD 顯卡，已自動切換至加速模式。"]
     else if "Intel" ∈ availableVendors env then
       ["★ 偵測到 Intel 加速 (QuickSync)，已自動切換。"]
     else ["未偵測到可用的硬體加速，建議使用 CPU 模式。"])

/-- Model of `GPUCheckThread.run` (lines 39-117): the full report line list
and the recommended vendor carried by the finished signal.  The function is
total: every per-vendor exception becomes a report line. -/
def gpuCheckReport (env : ProbeEnv) : List String × String :=
  (hwSection env.hwQuery ++ ["\n【加速功能診斷】"] ++ ffmpegWarn env ++
     vendorReport env ++ recSection env,
   recVendor env)

/-- The payload actually emitted (lines 116-117): report lines joined by
newlines, plus the recommended vendor. -/
def gpuCheckRun (env : ProbeEnv) : String × String :=
  (String.intercalate "\n" (gpuCheckReport env).1, (gpuCheckReport env).2)

/-! Helper lemmas shared by the claim theorems. -/

lemma slider_lt (a b : ℕ) (h : a < b) :
    ¬ ((b : ℚ) / 1000 ≤ (a : ℚ) / 1000) := by
  rw [not_le]
  have hab : (a : ℚ) < b := by exact_mod_cast h
  linarith

/-- The argv planned for a valid stream-copy job, fully evaluated. -/
lemma planJob_copy (st : CutterState) (out p : String)
    (hp : st.video_path = some p) (hpne : p ≠ "") (hone : out ≠ "")
    (hlt : st.startSliderMs < st.endSliderMs) (hcopy : st.copyMode = true) :
    planJob st out =
      some [.lit "ffmpeg.exe", .lit "-ss", .ratNum ((st.startSliderMs : ℚ) / 1000),
            .lit "-i", .lit p, .lit "-t",
            .ratNum ((st.endSliderMs : ℚ) / 1000 - (st.startSliderMs : ℚ) / 1000),
            .lit "-c", .lit "copy", .lit "-y", .lit out] := by
  have hle := slider_lt _ _ hlt
  simp only [planJob, process_video, hp, hle, hpne, hone, hcopy, if_true, if_false,
    ite_false, ite_true, Option.map_some]
  simp [buildCmd, hwArgs]

/-- The argv planned for a valid re-encode job, reduced to its sections. -/
lemma planJob_compress (st : CutterState) (out p : String)
    (hp : st.video_path = some p) (hpne : p ≠ "") (hone : out ≠ "")
    (hlt : st.startSliderMs < st.endSliderMs) (hcopy : st.copyMode = false) :
    planJob st out =
      some ([.lit "ffmpeg.exe"] ++ hwArgs (gpuString st.gpuChoice) ++
        [.lit "-ss", .ratNum ((st.startSliderMs : ℚ) / 1000), .lit "-i", .lit p,
         .lit "-t", .ratNum ((st.endSliderMs : ℚ) / 1000 - (st.startSliderMs : ℚ) / 1000)] ++
        (encoderArgs (gpuString st.gpuChoice) (some st.qualitySpin)
            (if st.bitrateChecked then some st.bitrateSpin else none) ++
          bitrateArgs (if st.bitrateChecked then some st.bitrateSpin else none) ++
          vfArgs (resString st.resolutionChoice) st.speedSpin ++
          audioArgs st.speedSpin ++
          fpsArgs (if st.fpsChecked then some st.fpsSpin else none)) ++
        [.lit "-y", .lit out]) := by
  have hle := slider_lt _ _ hlt
  simp only [planJob, process_video, hp, hle, hpne, hone, hcopy, if_true, if_false,
    ite_false, ite_true, Option.map_some]
  simp [buildCmd]

lemma mem_hwArgs {a : Arg} {g : String} (h : a ∈ hwArgs g) :
    a = .lit "-hwaccel" ∨ a = .lit "cuda" ∨ a = .lit "qsv" ∨ a = .lit "dxva2" := by
  unfold hwArgs at h
  split at h <;> [skip; split at h] <;> [skip; skip; split at h] <;> simp at h <;> tauto

lemma mem_vfArgs {a : Arg} {r : Option String} {s : ℚ} (h : a ∈ vfArgs r s) :
    a = .lit "-vf" ∨ a = .vfChain (vfilterChain r s) := by
  unfold vfArgs at h
  split at h <;> simp at h <;> tauto

lemma mem_audioArgs {a : Arg} {s : ℚ} (h : a ∈ audioArgs s) :
    a = .lit "-c:a" ∨ a = .lit "aac" ∨ a = .lit "-b:a" ∨ a = .lit "192k" ∨
      a = .lit "-af" ∨ a = .atempoArg s := by
  unfold audioArgs at h
  split at h <;> simp at h <;> tauto

lemma mem_fpsArgs {a : Arg} {f : Option ℕ} (h : a ∈ fpsArgs f) :
    a = .lit "-r" ∨ ∃ n, a = .natOpt (some n) := by
  unfold fpsArgs at h
  rcases f with _ | n
  · simp at h
  · split at h <;> simp at h <;> tauto

lemma mem_bitrateArgs {a : Arg} {b : Option ℕ} (h : a ∈ bitrateArgs b) :
    a = .lit "-b:v" ∨ a = .lit "-maxrate" ∨ a = .lit "-bufsize" ∨ ∃ n, a = .kval n := by
  unfold bitrateArgs at h
  rcases b with _ | n
  · simp at h
  · split at h <;> simp at h <;> tauto

/-- Every string that names a re-encode-only flag or the decode hint in the
planner: the hardware decode flag, codec selections, rate control, filters,
audio re-encode and the frame-rate override. -/
def reencodeFlagStrs : List String :=
  ["-hwaccel", "-c:v", "-preset", "-rc", "-cq", "-qp", "-qp_i", "-qp_p",
   "-global_quality", "-crf", "-usage", "-b:v", "-maxrate", "-bufsize",
   "-vf", "-af", "-c:a", "-b:a", "-r"]

/-! Claim theorems. -/

/-- Claim C1: for every valid job planned in stream-copy mode, the argv is
exactly seek-before-input timing, the input, the duration, the all-stream
copy directive, the overwrite flag and the output path; whatever the
accelerator, quality, fps, resolution, bitrate and speed settings are, it
contains no re-encode-only flag and no hardware decode hint (the job
normalization forces the CPU vendor and neutral settings in copy mode). -/
theorem streamCopy_plan_exact (st : CutterState) (out p : String)
    (hp : st.video_path = some p) (hcopy : st.copyMode = true)
    (hpne : p ≠ "") (hone : out ≠ "") (hlt : st.startSliderMs < st.endSliderMs)
    (hpf : p ∉ reencodeFlagStrs) (hof : out ∉ reencodeFlagStrs) :
    ∀ cmd, planJob st out = some cmd →
      cmd = [.lit "ffmpeg.exe", .lit "-ss", .ratNum ((st.startSliderMs : ℚ) / 1000),
             .lit "-i", .lit p, .lit "-t",
             .ratNum ((st.endSliderMs : ℚ) / 1000 - (st.startSliderMs : ℚ) / 1000),
             .lit "-c", .lit "copy", .lit "-y", .lit out] ∧
      (∀ a ∈ cmd, ∀ f ∈ reencodeFlagStrs, a ≠ Arg.lit f) ∧
      (∀ fs, Arg.vfChain fs ∉ cmd) ∧ (∀ q, Arg.atempoArg q ∉ cmd) := by
  intro cmd h
  rw [planJob_copy st out p hp hpne hone hlt hcopy] at h
  have hc : cmd = [.lit "ffmpeg.exe", .lit "-ss", .ratNum ((st.startSliderMs : ℚ) / 1000),
      .lit "-i", .lit p, .lit "-t",
      .ratNum ((st.endSliderMs : ℚ) / 1000 - (st.startSliderMs : ℚ) / 1000),
      .lit "-c", .lit "copy", .lit "-y", .lit out] := by
    exact (Option.some.injEq _ _).mp h.symm
  subst hc
  refine ⟨rfl, ?_, ?_, ?_⟩
  · intro a ha f hf
    simp only [List.mem_cons, List.not_mem_nil, or_false] at ha
    rcases ha with rfl | rfl | rfl | rfl | rfl | rfl | rfl | rfl | rfl | rfl | rfl
    all_goals intro he
    all_goals first
      | (injection he with he'
         subst he'
         revert hf
         decide)
      | (injection he with he'
         exact hpf (he' ▸ hf))
      | (injection he with he'
         exact hof (he' ▸ hf))
      | exact Arg.noConfusion he
  · intro fs hm
    simp at hm
  · intro q hm
    simp at hm

/-- A concrete stream-copy job whose re-encode-only settings are all hostile:
NVIDIA accelerator, lossless quality, fps and bitrate checked, 720p target,
double speed. -/
def stC1 : CutterState :=
  { video_path := some "in.mp4", video_bitrate := 8000,
    startSliderMs := 10000, endSliderMs := 20000, copyMode := true,
    qualitySpin := 0, fpsChecked := true, fpsSpin := 60,
    bitrateChecked := true, bitrateSpin := 5000, speedSpin := 2,
    resolutionChoice := .r720p, gpuChoice := .nvidia, outputFormat := "mp4" }

/-- Witness for C1: the hostile concrete job still plans to a pure copy
command free of the decode hint. -/
theorem streamCopy_plan_exact_witness :
    planJob stC1 "out.mp4" =
      some [.lit "ffmpeg.exe", .lit "-ss", .ratNum 10, .lit "-i", .lit "in.mp4",
            .lit "-t", .ratNum 10, .lit "-c", .lit "copy", .lit "-y", .lit "out.mp4"] ∧
    Arg.lit "-hwaccel" ∉
      ([.lit "ffmpeg.exe", .lit "-ss", .ratNum 10, .lit "-i", .lit "in.mp4",
        .lit "-t", .ratNum 10, .lit "-c", .lit "copy", .lit "-y", .lit "out.mp4"] : List Arg) := by
  have h0 := planJob_copy stC1 "out.mp4" "in.mp4" rfl (by decide) (by decide) (by decide) rfl
  have e1 : ((stC1.startSliderMs : ℚ) / 1000) = 10 := by norm_num [stC1]
  have e2 : ((stC1.endSliderMs : ℚ) / 1000 - (stC1.startSliderMs : ℚ) / 1000) = 10 := by
    norm_num [stC1]
  rw [e2, e1] at h0
  have hmain := streamCopy_plan_exact stC1 "out.mp4" "in.mp4" rfl rfl (by decide) (by decide)
    (by decide) (by decide) (by decide) _ h0
  refine ⟨h0, ?_⟩
  intro hm
  rw [e2, e1] at hmain
  exact hmain.2.1 _ hm "-hwaccel" (by decide) rfl

lemma not_lit_mem_vfArgs {s : String} {r : Option String} {sp : ℚ}
    (hs : s ≠ "-vf") : Arg.lit s ∉ vfArgs r sp := by
  intro h
  rcases mem_vfArgs h with h' | h' <;> simp_all

lemma not_lit_mem_audioArgs {s : String} {sp : ℚ}
    (hs : s ∉ (["-c:a", "aac", "-b:a", "192k", "-af"] : List String)) :
    Arg.lit s ∉ audioArgs sp := by
  intro h
  rcases mem_audioArgs h with h' | h' | h' | h' | h' | h' <;> simp_all

lemma not_lit_mem_fpsArgs {s : String} {f : Option ℕ}
    (hs : s ≠ "-r") : Arg.lit s ∉ fpsArgs f := by
  intro h
  rcases mem_fpsArgs h with h' | ⟨n, h'⟩ <;> simp_all

/-- Claim C2: planning a re-encode job with quality 0 and no explicit bitrate
emits a vendor-specific lossless-equivalent rate-control sequence: NVIDIA the
constant-quantizer-zero form (never its auto/VBR form), AMD quantizer 0
directly, Intel its best finite quality 1 in place of 0, CPU quality 0 as a
legitimate lossless value; no vendor branch omits rate-control flags. -/
theorem quality_zero_rate_control (st : CutterState) (out p : String)
    (hp : st.video_path = some p) (hcopy : st.copyMode = false)
    (hq : st.qualitySpin = 0) (hb : st.bitrateChecked = false)
    (hpne : p ≠ "") (hone : out ≠ "") (hlt : st.startSliderMs < st.endSliderMs)
    (hpv : p ≠ "vbr") (hov : out ≠ "vbr") :
    ∀ cmd, planJob st out = some cmd →
      (st.gpuChoice = .nvidia →
        (∃ l r, cmd = l ++ [.lit "-rc", .lit "constqp", .lit "-qp", .lit "0"] ++ r) ∧
        Arg.lit "vbr" ∉ cmd) ∧
      (st.gpuChoice = .amd →
        ∃ l r, cmd = l ++ [.lit "-rc", .lit "cqp", .lit "-qp_i", .natOpt (some 0),
                           .lit "-qp_p", .natOpt (some 0)] ++ r) ∧
      (st.gpuChoice = .intel →
        ∃ l r, cmd = l ++ [.lit "-global_quality", .natOpt (some 1)] ++ r) ∧
      (st.gpuChoice = .cpu →
        ∃ l r, cmd = l ++ [.lit "-crf", .natOpt (some 0)] ++ r) := by
  intro cmd h
  rw [planJob_compress st out p hp hpne hone hlt hcopy] at h
  have hc := (Option.some.injEq _ _).mp h.symm
  subst hc
  rcases hgc : st.gpuChoice with _ | _ | _ | _ <;>
    simp only [hgc, hq, hb] <;>
    refine ⟨?_, ?_, ?_, ?_⟩ <;>
    first
      | (intro hfalse; exact absurd hfalse (by decide))
      | skip
  -- cpu case
  · intro _
    refine ⟨[.lit "ffmpeg.exe", .lit "-ss", .ratNum ((st.startSliderMs : ℚ) / 1000),
             .lit "-i", .lit p, .lit "-t",
             .ratNum ((st.endSliderMs : ℚ) / 1000 - (st.startSliderMs : ℚ) / 1000),
             .lit "-c:v", .lit "libx264", .lit "-preset", .lit "medium"],
           vfArgs (resString st.resolutionChoice) st.speedSpin ++
             (audioArgs st.speedSpin ++
               (fpsArgs (if st.fpsChecked then some st.fpsSpin else none) ++
                 [.lit "-y", .lit out])), ?_⟩
    simp [hgc, hq, hb, gpuString, hwArgs, encoderArgs, bitrateArgs, truthyOpt]
  -- nvidia case
  · intro _
    constructor
    · refine ⟨[.lit "ffmpeg.exe", .lit "-hwaccel", .lit "cuda",
               .lit "-ss", .ratNum ((st.startSliderMs : ℚ) / 1000),
               .lit "-i", .lit p, .lit "-t",
               .ratNum ((st.endSliderMs : ℚ) / 1000 - (st.startSliderMs : ℚ) / 1000),
               .lit "-c:v", .lit "h264_nvenc", .lit "-preset", .lit "p4"],
             vfArgs (resString st.resolutionChoice) st.speedSpin ++
               (audioArgs st.speedSpin ++
                 (fpsArgs (if st.fpsChecked then some st.fpsSpin else none) ++
                   [.lit "-y", .lit out])), ?_⟩
      simp [hgc, hq, hb, gpuString, hwArgs, encoderArgs, bitrateArgs, truthyOpt]
    · intro hm
      simp only [hgc, hq, hb, gpuString, hwArgs, encoderArgs, bitrateArgs, truthyOpt,
        List.mem_append, List.mem_cons, List.not_mem_nil, or_false, List.cons_append,
        List.nil_append, List.append_assoc, if_true, if_false, ite_true, ite_false] at hm
      simp only [Arg.lit.injEq] at hm
      rcases hm with h' | h' | h' | h' | h' | h' | h' | h' | h' | h' | h' | h' | h' |
        h' | h' | h' | h' | h' | h' | h'
      all_goals first
        | simp at h'
        | exact hpv h'.symm
        | exact hov h'.symm
        | exact not_lit_mem_vfArgs (by decide) h'
        | exact not_lit_mem_audioArgs (by decide) h'
        | exact not_lit_mem_fpsArgs (by decide) h'
  -- amd case
  · intro _
    refine ⟨[.lit "ffmpeg.exe", .lit "-hwaccel", .lit "dxva2",
             .lit "-ss", .ratNum ((st.startSliderMs : ℚ) / 1000),
             .lit "-i", .lit p, .lit "-t",
             .ratNum ((st.endSliderMs : ℚ) / 1000 - (st.startSliderMs : ℚ) / 1000),
             .lit "-c:v", .lit "h264_amf", .lit "-usage", .lit "transcoding"],
           vfArgs (resString st.resolutionChoice) st.speedSpin ++
             (audioArgs st.speedSpin ++
               (fpsArgs (if st.fpsChecked then some st.fpsSpin else none) ++
                 [.lit "-y", .lit out])), ?_⟩
    simp [hgc, hq, hb, gpuString, hwArgs, encoderArgs, bitrateArgs, truthyOpt]
  -- intel case
  · intro _
    refine ⟨[.lit "ffmpeg.exe", .lit "-hwaccel", .lit "qsv",
             .lit "-ss", .ratNum ((st.startSliderMs : ℚ) / 1000),
             .lit "-i", .lit p, .lit "-t",
             .ratNum ((st.endSliderMs : ℚ) / 1000 - (st.startSliderMs : ℚ) / 1000),
             .lit "-c:v", .lit "h264_qsv", .lit "-preset", .lit "medium"],
           vfArgs (resString st.resolutionChoice) st.speedSpin ++
             (audioArgs st.speedSpin ++
               (fpsArgs (if st.fpsChecked then some st.fpsSpin else none) ++
                 [.lit "-y", .lit out])), ?_⟩
    simp [hgc, hq, hb, gpuString, hwArgs, encoderArgs, bitrateArgs, truthyOpt]


/-- A concrete NVIDIA re-encode job at quality 0 without explicit bitrate. -/
def stC2 : CutterState :=
  { video_path := some "in.mp4", video_bitrate := 8000,
    startSliderMs := 10000, endSliderMs := 20000, copyMode := false,
    qualitySpin := 0, fpsChecked := false, fpsSpin := 60,
    bitrateChecked := false, bitrateSpin := 5000, speedSpin := 1,
    resolutionChoice := .original, gpuChoice := .nvidia, outputFormat := "mp4" }

/-- Concrete evaluation of the stC2 plan. -/
lemma planJob_stC2 :
    planJob stC2 "out.mp4" =
      some [.lit "ffmpeg.exe", .lit "-hwaccel", .lit "cuda", .lit "-ss", .ratNum 10,
            .lit "-i", .lit "in.mp4", .lit "-t", .ratNum 10,
            .lit "-c:v", .lit "h264_nvenc", .lit "-preset", .lit "p4",
            .lit "-rc", .lit "constqp", .lit "-qp", .lit "0",
            .lit "-c:a", .lit "aac", .lit "-b:a", .lit "192k",
            .lit "-y", .lit "out.mp4"] := by
  have h0 := planJob_compress stC2 "out.mp4" "in.mp4" rfl (by decide) (by decide) (by decide) rfl
  have e1 : ((stC2.startSliderMs : ℚ) / 1000) = 10 := by norm_num [stC2]
  have e2 : ((stC2.endSliderMs : ℚ) / 1000 - (stC2.startSliderMs : ℚ) / 1000) = 10 := by
    norm_num [stC2]
  rw [e2, e1] at h0
  rw [h0]
  simp [stC2, gpuString, resString, hwArgs, encoderArgs, bitrateArgs, vfArgs,
    vfilterChain, audioArgs, fpsArgs, truthyOpt]

/-- Witness for C2: the NVIDIA quality-0 plan evaluated concretely carries
the constqp segment and no vbr token. -/
theorem quality_zero_rate_control_witness :
    (∃ l r, ([.lit "ffmpeg.exe", .lit "-hwaccel", .lit "cuda", .lit "-ss", .ratNum 10,
              .lit "-i", .lit "in.mp4", .lit "-t", .ratNum 10,
              .lit "-c:v", .lit "h264_nvenc", .lit "-preset", .lit "p4",
              .lit "-rc", .lit "constqp", .lit "-qp", .lit "0",
              .lit "-c:a", .lit "aac", .lit "-b:a", .lit "192k",
              .lit "-y", .lit "out.mp4"] : List Arg) =
        l ++ [.lit "-rc", .lit "constqp", .lit "-qp", .lit "0"] ++ r) ∧
    Arg.lit "vbr" ∉
      ([.lit "ffmpeg.exe", .lit "-hwaccel", .lit "cuda", .lit "-ss", .ratNum 10,
        .lit "-i", .lit "in.mp4", .lit "-t", .ratNum 10,
        .lit "-c:v", .lit "h264_nvenc", .lit "-preset", .lit "p4",
        .lit "-rc", .lit "constqp", .lit "-qp", .lit "0",
        .lit "-c:a", .lit "aac", .lit "-b:a", .lit "192k",
        .lit "-y", .lit "out.mp4"] : List Arg) :=
  (quality_zero_rate_control stC2 "out.mp4" "in.mp4" rfl rfl rfl rfl (by decide) (by decide)
    (by decide) (by decide) (by decide) _ planJob_stC2).1 rfl



/-- Quality-derived rate-control flag names, across all vendor branches. -/
def qualityFlagStrs : List String :=
  ["-crf", "-rc", "-cq", "-qp", "-qp_i", "-qp_p", "-global_quality"]

lemma mem_encoderArgs_bitrate {a : Arg} {g : String} {q b : Option ℕ}
    (hb : truthyOpt b = true) (h : a ∈ encoderArgs g q b) :
    ∃ s, a = Arg.lit s ∧
      s ∈ (["-c:v", "h264_nvenc", "-preset", "p4", "h264_amf", "-usage",
            "transcoding", "h264_qsv", "medium", "libx264"] : List String) := by
  unfold encoderArgs at h
  simp only [hb, ite_true, if_true, List.append_nil] at h
  split at h <;> [skip; split at h] <;> [skip; skip; split at h] <;>
    simp at h <;> rcases h with h | h | h | h <;> exact ⟨_, h, by simp⟩

lemma lit_mem_planCompress (st : CutterState) (out p : String)
    (hp : st.video_path = some p) (hpne : p ≠ "") (hone : out ≠ "")
    (hlt : st.startSliderMs < st.endSliderMs) (hcopy : st.copyMode = false)
    {cmd : List Arg} (h : planJob st out = some cmd)
    {s : String} (hs : Arg.lit s ∈ cmd) :
    s = p ∨ s = out ∨
    s ∈ (["ffmpeg.exe", "-ss", "-i", "-t", "-y", "-hwaccel", "cuda", "qsv", "dxva2",
          "-vf", "-c:a", "aac", "-b:a", "192k", "-af", "-r"] : List String) ∨
    Arg.lit s ∈ encoderArgs (gpuString st.gpuChoice) (some st.qualitySpin)
        (if st.bitrateChecked then some st.bitrateSpin else none) ∨
    Arg.lit s ∈ bitrateArgs (if st.bitrateChecked then some st.bitrateSpin else none) := by
  rw [planJob_compress st out p hp hpne hone hlt hcopy] at h
  have hc := (Option.some.injEq _ _).mp h.symm
  subst hc
  rcases List.mem_append.mp hs with hs1 | h5
  case inr =>
    simp only [List.mem_cons, List.not_mem_nil, or_false] at h5
    rcases h5 with h' | h'
    · injection h' with h2; subst h2; simp
    · injection h' with h2; exact Or.inr (Or.inl h2)
  rcases List.mem_append.mp hs1 with hs2 | h4
  case inr =>
    rcases List.mem_append.mp h4 with h4a | hfps
    case inr =>
      rcases mem_fpsArgs hfps with h2 | ⟨n, h2⟩
      · injection h2 with h3; subst h3; simp
      · exact Arg.noConfusion h2
    rcases List.mem_append.mp h4a with h4b | haudio
    case inr =>
      rcases mem_audioArgs haudio with h2 | h2 | h2 | h2 | h2 | h2 <;>
        first
          | (injection h2 with h3; subst h3; simp)
          | exact Arg.noConfusion h2
    rcases List.mem_append.mp h4b with h4c | hvf
    case inr =>
      rcases mem_vfArgs hvf with h2 | h2
      · injection h2 with h3; subst h3; simp
      · exact Arg.noConfusion h2
    rcases List.mem_append.mp h4c with henc | hbr
    · exact Or.inr (Or.inr (Or.inr (Or.inl henc)))
    · exact Or.inr (Or.inr (Or.inr (Or.inr hbr)))
  rcases List.mem_append.mp hs2 with hs3 | h3
  case inr =>
    simp only [List.mem_cons, List.not_mem_nil, or_false] at h3
    rcases h3 with h' | h' | h' | h' | h' | h'
    · injection h' with h2; subst h2; simp
    · exact Arg.noConfusion h'
    · injection h' with h2; subst h2; simp
    · injection h' with h2; exact Or.inl h2
    · injection h' with h2; subst h2; simp
    · exact Arg.noConfusion h'
  rcases List.mem_append.mp hs3 with h1 | h2
  · simp only [List.mem_singleton] at h1
    injection h1 with h2; subst h2; simp
  · rcases mem_hwArgs h2 with h2 | h2 | h2 | h2 <;>
      (injection h2 with h3; subst h3; simp)



/-- Claim C3 (amended): for every re-encode job with an explicit bitrate, the
planned argv contains the target-bitrate, max-rate and buffer-size flags with
values bitrate, bitrate and double bitrate, while the quality-derived
rate-control flags are omitted entirely (not merely ordered earlier), so
quality-derived rate control never takes effect. -/
theorem explicit_bitrate_overrides (st : CutterState) (out p : String)
    (hp : st.video_path = some p) (hcopy : st.copyMode = false)
    (hbc : st.bitrateChecked = true) (hbn : st.bitrateSpin ≠ 0)
    (hpne : p ≠ "") (hone : out ≠ "") (hlt : st.startSliderMs < st.endSliderMs)
    (hpq : p ∉ qualityFlagStrs) (hoq : out ∉ qualityFlagStrs) :
    ∀ cmd, planJob st out = some cmd →
      (∃ l r, cmd = l ++ [.lit "-b:v", .kval st.bitrateSpin, .lit "-maxrate",
          .kval st.bitrateSpin, .lit "-bufsize", .kval (st.bitrateSpin * 2)] ++ r) ∧
      (∀ f ∈ qualityFlagStrs, Arg.lit f ∉ cmd) := by
  intro cmd h
  have hbt : truthyOpt (if st.bitrateChecked then some st.bitrateSpin else none) = true := by
    simp [hbc, truthyOpt, hbn]
  constructor
  · rw [planJob_compress st out p hp hpne hone hlt hcopy] at h
    have hc := (Option.some.injEq _ _).mp h.symm
    subst hc
    rcases hgc : st.gpuChoice with _ | _ | _ | _
    · refine ⟨[.lit "ffmpeg.exe", .lit "-ss", .ratNum ((st.startSliderMs : ℚ) / 1000),
               .lit "-i", .lit p, .lit "-t",
               .ratNum ((st.endSliderMs : ℚ) / 1000 - (st.startSliderMs : ℚ) / 1000),
               .lit "-c:v", .lit "libx264", .lit "-preset", .lit "medium"],
             vfArgs (resString st.resolutionChoice) st.speedSpin ++
               audioArgs st.speedSpin ++
               fpsArgs (if st.fpsChecked then some st.fpsSpin else none) ++
               [.lit "-y", .lit out], ?_⟩
      simp [hgc, hbc, gpuString, hwArgs, encoderArgs, bitrateArgs, truthyOpt, hbn]
    · refine ⟨[.lit "ffmpeg.exe", .lit "-hwaccel", .lit "cuda",
               .lit "-ss", .ratNum ((st.startSliderMs : ℚ) / 1000),
               .lit "-i", .lit p, .lit "-t",
               .ratNum ((st.endSliderMs : ℚ) / 1000 - (st.startSliderMs : ℚ) / 1000),
               .lit "-c:v", .lit "h264_nvenc", .lit "-preset", .lit "p4"],
             vfArgs (resString st.resolutionChoice) st.speedSpin ++
               audioArgs st.speedSpin ++
               fpsArgs (if st.fpsChecked then some st.fpsSpin else none) ++
               [.lit "-y", .lit out], ?_⟩
      simp [hgc, hbc, gpuString, hwArgs, encoderArgs, bitrateArgs, truthyOpt, hbn]
    · refine ⟨[.lit "ffmpeg.exe", .lit "-hwaccel", .lit "dxva2",
               .lit "-ss", .ratNum ((st.startSliderMs : ℚ) / 1000),
               .lit "-i", .lit p, .lit "-t",
               .ratNum ((st.endSliderMs : ℚ) / 1000 - (st.startSliderMs : ℚ) / 1000),
               .lit "-c:v", .lit "h264_amf", .lit "-usage", .lit "transcoding"],
             vfArgs (resString st.resolutionChoice) st.speedSpin ++
               audioArgs st.speedSpin ++
               fpsArgs (if st.fpsChecked then some st.fpsSpin else none) ++
               [.lit "-y", .lit out], ?_⟩
      simp [hgc, hbc, gpuString, hwArgs, encoderArgs, bitrateArgs, truthyOpt, hbn]
    · refine ⟨[.lit "ffmpeg.exe", .lit "-hwaccel", .lit "qsv",
               .lit "-ss", .ratNum ((st.startSliderMs : ℚ) / 1000),
               .lit "-i", .lit p, .lit "-t",
               .ratNum ((st.endSliderMs : ℚ) / 1000 - (st.startSliderMs : ℚ) / 1000),
               .lit "-c:v", .lit "h264_qsv", .lit "-preset", .lit "medium"],
             vfArgs (resString st.resolutionChoice) st.speedSpin ++
               audioArgs st.speedSpin ++
               fpsArgs (if st.fpsChecked then some st.fpsSpin else none) ++
               [.lit "-y", .lit out], ?_⟩
      simp [hgc, hbc, gpuString, hwArgs, encoderArgs, bitrateArgs, truthyOpt, hbn]
  · intro f hf hm
    rcases lit_mem_planCompress st out p hp hpne hone hlt hcopy h hm with
      h1 | h1 | h1 | h1 | h1
    · exact hpq (h1 ▸ hf)
    · exact hoq (h1 ▸ hf)
    · have hx : ∀ x ∈ qualityFlagStrs,
          x ∉ (["ffmpeg.exe", "-ss", "-i", "-t", "-y", "-hwaccel", "cuda", "qsv",
                "dxva2", "-vf", "-c:a", "aac", "-b:a", "192k", "-af", "-r"] :
              List String) := by decide
      exact hx f hf h1
    · obtain ⟨s', hs', hmem⟩ := mem_encoderArgs_bitrate hbt h1
      injection hs' with h2
      subst h2
      have hx : ∀ x ∈ qualityFlagStrs,
          x ∉ (["-c:v", "h264_nvenc", "-preset", "p4", "h264_amf", "-usage",
                "transcoding", "h264_qsv", "medium", "libx264"] : List String) := by decide
      exact hx _ hf hmem
    · rcases mem_bitrateArgs h1 with h2 | h2 | h2 | ⟨n, h2⟩
      · injection h2 with h3; subst h3; revert hf; decide
      · injection h2 with h3; subst h3; revert hf; decide
      · injection h2 with h3; subst h3; revert hf; decide
      · exact Arg.noConfusion h2



/-- A concrete CPU re-encode job with explicit bitrate 5000 and quality 23. -/
def stC3 : CutterState :=
  { video_path := some "in.mp4", video_bitrate := 8000,
    startSliderMs := 10000, endSliderMs := 20000, copyMode := false,
    qualitySpin := 23, fpsChecked := false, fpsSpin := 60,
    bitrateChecked := true, bitrateSpin := 5000, speedSpin := 1,
    resolutionChoice := .original, gpuChoice := .cpu, outputFormat := "mp4" }

/-- The argv planned for stC3. -/
def cmdC3 : List Arg :=
  [.lit "ffmpeg.exe", .lit "-ss", .ratNum 10, .lit "-i", .lit "in.mp4",
   .lit "-t", .ratNum 10, .lit "-c:v", .lit "libx264", .lit "-preset", .lit "medium",
   .lit "-b:v", .kval 5000, .lit "-maxrate", .kval 5000, .lit "-bufsize", .kval 10000,
   .lit "-c:a", .lit "aac", .lit "-b:a", .lit "192k", .lit "-y", .lit "out.mp4"]

/-- Concrete evaluation of the stC3 plan. -/
lemma planJob_stC3 : planJob stC3 "out.mp4" = some cmdC3 := by
  have h0 := planJob_compress stC3 "out.mp4" "in.mp4" rfl (by decide) (by decide) (by decide) rfl
  have e1 : ((stC3.startSliderMs : ℚ) / 1000) = 10 := by norm_num [stC3]
  have e2 : ((stC3.endSliderMs : ℚ) / 1000 - (stC3.startSliderMs : ℚ) / 1000) = 10 := by
    norm_num [stC3]
  rw [e2, e1] at h0
  rw [h0, cmdC3]
  simp [stC3, gpuString, resString, hwArgs, encoderArgs, bitrateArgs, vfArgs,
    vfilterChain, audioArgs, fpsArgs, truthyOpt]

/-- Counterexample for C3 as stated: with an explicit bitrate of 5000 kbps
and quality 23 on the CPU branch, the plan carries the bitrate flags but no
quality-derived rate-control flag at all, so the bitrate flags are not
appended after any quality flags. -/
theorem explicit_bitrate_order_cex :
    planJob stC3 "out.mp4" = some cmdC3 ∧
    Arg.lit "-b:v" ∈ cmdC3 ∧ Arg.kval 5000 ∈ cmdC3 ∧ Arg.kval 10000 ∈ cmdC3 ∧
    Arg.lit "-crf" ∉ cmdC3 ∧ Arg.lit "-rc" ∉ cmdC3 ∧ Arg.lit "-cq" ∉ cmdC3 ∧
    Arg.lit "-qp" ∉ cmdC3 ∧ Arg.lit "-qp_i" ∉ cmdC3 ∧ Arg.lit "-qp_p" ∉ cmdC3 ∧
    Arg.lit "-global_quality" ∉ cmdC3 :=
  ⟨planJob_stC3, by decide, by decide, by decide, by decide, by decide, by decide,
   by decide, by decide, by decide, by decide⟩

/-- Witness for the amended C3 at the concrete stC3 plan. -/
theorem explicit_bitrate_overrides_witness :
    (∃ l r, cmdC3 = l ++ [.lit "-b:v", .kval 5000, .lit "-maxrate",
        .kval 5000, .lit "-bufsize", .kval 10000] ++ r) ∧
    Arg.lit "-crf" ∉ cmdC3 := by
  have h := explicit_bitrate_overrides stC3 "out.mp4" "in.mp4" rfl rfl rfl (by decide)
    (by decide) (by decide) (by decide) (by decide) (by decide) cmdC3 planJob_stC3
  exact ⟨h.1, h.2 "-crf" (by decide)⟩


/-- The Python int() truncation is monotone. -/
lemma pyInt_mono {a b : ℚ} (h : a ≤ b) : pyInt a ≤ pyInt b := by
  unfold pyInt
  split <;> split
  · exact Int.ceil_mono h
  · calc ⌈a⌉ ≤ 0 := Int.ceil_le.mpr (by push_cast; exact le_of_lt (by assumption))
      _ ≤ ⌊b⌋ := Int.floor_nonneg.mpr (not_lt.mp (by assumption))
  · exact absurd (lt_of_le_of_lt h (by assumption)) (by assumption)
  · exact Int.floor_mono h

/-- With a positive expected duration, one value is emitted per parsed
marker, in stream order. -/
lemma emittedProgress_eq (d s : ℚ) (hpos : 0 < d / s) (lines : List (Option TimeMark)) :
    emittedProgress d s lines =
      (lines.filterMap id).map (fun t => min (pyInt (t.elapsed / (d / s) * 100)) 100) := by
  induction lines with
  | nil => rfl
  | cons hd tl ih =>
    rcases hd with _ | t
    · simpa [emittedProgress, List.filterMap_cons, progressOfLine] using ih
    · simpa [emittedProgress, List.filterMap_cons, progressOfLine, hpos] using ih

/-- Claim C4 (amended): every emitted progress value is the formula value
min(100, int(elapsed / (duration / speed) * 100)) and lies in 0..100 for
markers with nonnegative fields; one value is emitted per parseable marker
with no only-on-increase filter, so the emitted sequence is non-decreasing
when the raw stream's elapsed times are non-decreasing, but a non-monotonic
raw stream makes the emitted values regress. -/
theorem progress_bounds_and_emission (duration speed : ℚ)
    (lines : List (Option TimeMark))
    (hnn : ∀ t : TimeMark, some t ∈ lines → 0 ≤ t.s) :
    (∀ v ∈ emittedProgress duration speed lines, 0 ≤ v ∧ v ≤ 100) ∧
    (0 < duration / speed →
      (emittedProgress duration speed lines).length = (lines.filterMap id).length) ∧
    (0 < duration / speed →
      (lines.filterMap id).Chain' (fun a b => a.elapsed ≤ b.elapsed) →
      (emittedProgress duration speed lines).Chain' (· ≤ ·)) := by
  refine ⟨?_, ?_, ?_⟩
  · intro v hv
    obtain ⟨line, hline, hv⟩ := List.mem_filterMap.mp hv
    rcases line with _ | t
    · exact absurd hv (by simp [progressOfLine])
    · unfold progressOfLine at hv
      by_cases hpos : 0 < duration / speed
      · simp only [hpos, if_true, ite_true, Option.some.injEq] at hv
        subst hv
        constructor
        · apply le_min _ (by norm_num)
          have hel : 0 ≤ t.elapsed := by
            have := hnn t hline
            unfold TimeMark.elapsed
            positivity
          have hx : 0 ≤ t.elapsed / (duration / speed) * 100 := by positivity
          unfold pyInt
          rw [if_neg (not_lt.mpr hx)]
          exact Int.floor_nonneg.mpr hx
        · exact min_le_right _ _
      · exact absurd hv (by simp [hpos])
  · intro hpos
    rw [emittedProgress_eq duration speed hpos, List.length_map]
  · intro hpos hchain
    rw [emittedProgress_eq duration speed hpos]
    rw [List.chain'_map]
    refine hchain.imp ?_
    intro a b hab
    have h100 : a.elapsed / (duration / speed) * 100 ≤ b.elapsed / (duration / speed) * 100 :=
      mul_le_mul_of_nonneg_right ((div_le_div_iff_of_pos_right hpos).mpr hab) (by norm_num)
    exact min_le_min (pyInt_mono h100) le_rfl

/-- Counterexample for C4 as stated: a raw stream reporting 10s then 5s of a
20s clip makes the supervisor emit 50 then 25 - the emitted sequence is not
non-decreasing, because the code has no monotonicity guard. -/
theorem progress_monotonic_cex :
    emittedProgress 20 1 [some ⟨0, 0, 10⟩, some ⟨0, 0, 5⟩] = [50, 25] ∧
    ¬ ((50 : ℤ) ≤ 25) := by
  constructor
  · simp only [emittedProgress, List.filterMap_cons, List.filterMap_nil, progressOfLine,
      TimeMark.elapsed, pyInt]
    norm_num
  · norm_num

/-- Witness for the amended C4: the two-marker stream yields exactly two
emitted values. -/
theorem progress_bounds_and_emission_witness :
    (emittedProgress 20 1 [some ⟨0, 0, 10⟩, some ⟨0, 0, 5⟩]).length = 2 := by
  have h := (progress_bounds_and_emission 20 1 [some ⟨0, 0, 10⟩, some ⟨0, 0, 5⟩]
    (by intro t ht; simp at ht; rcases ht with h | h <;> (subst h; norm_num))).2.1
    (by norm_num)
  rw [h]
  rfl


/-- Counterexample for C5 as stated: the abnormal exit caused by terminate
(SIGTERM gives return code -15) is reported identically to an ordinary
failing exit, as the Failed pair with the generic message - the completion
signal has no Cancelled outcome distinct from Failed. -/
theorem cancel_outcome_cex :
    reportExit (-15) = reportExit 1 ∧ reportExit (-15) = (false, failMsg) := by
  constructor <;> decide

/-- Claim C5 (amended): stop sends a termination signal to the running
external process, and the resulting abnormal (nonzero) exit is surfaced
through the same Failed outcome and generic message used for ordinary
non-zero exits; no distinct Cancelled outcome exists. -/
theorem cancel_terminate_reports_failed (process : Option ℕ) (hp : process ≠ none)
    (rc : ℤ) (hrc : rc ≠ 0) :
    stopActions process = [SupAction.terminate] ∧
    reportExit rc = (false, failMsg) := by
  constructor
  · rcases process with _ | n
    · exact absurd rfl hp
    · rfl
  · simp [reportExit, hrc]

/-- Witness for the amended C5 with a live process handle and SIGTERM. -/
theorem cancel_terminate_reports_failed_witness :
    stopActions (some 7) = [SupAction.terminate] ∧ reportExit (-15) = (false, failMsg) :=
  cancel_terminate_reports_failed (some 7) (by decide) (-15) (by decide)

/-- Claim C6: every run reports exactly one completion outcome (runJob is a
total function into a single completion pair): Succeeded with the success
message iff the process exits 0, Failed with the generic diagnostic on any
nonzero exit, and Failed with the prefixed exception message for any
exception while constructing or running the process - exceptions never
propagate past the run boundary. -/
theorem run_completion_outcomes (j : VPJob) (env : RunEnv) :
    ((runJob j env).2.1 = true ↔ ∃ lines, env = RunEnv.exited 0 lines) ∧
    (∀ lines msg, env = RunEnv.excRaised lines msg →
      (runJob j env).2 = (false, excMsg msg)) ∧
    (∀ rc lines, env = RunEnv.exited rc lines → rc ≠ 0 →
      (runJob j env).2 = (false, failMsg)) ∧
    (∀ lines, env = RunEnv.exited 0 lines →
      (runJob j env).2 = (true, successMsg)) := by
  rcases env with ⟨lines, msg⟩ | ⟨rc, lines⟩
  · refine ⟨?_, ?_, ?_, ?_⟩ <;> simp [runJob, reportExit]
  · by_cases h0 : rc = 0 <;> refine ⟨?_, ?_, ?_, ?_⟩ <;> simp_all [runJob, reportExit]

/-- A concrete job for exercising the supervisor. -/
def jW : VPJob :=
  { input_path := "in.mp4", output_path := "out.mp4", start_time := 0, end_time := 10,
    mode := "copy", quality := none, fps := none, bitrate := none,
    output_format := "mp4", resolution := none, gpu_vendor := "CPU", speed := 1 }

/-- Witness for C6 at the three kinds of process endings. -/
theorem run_completion_outcomes_witness :
    (runJob jW (RunEnv.exited 0 [])).2 = (true, successMsg) ∧
    (runJob jW (RunEnv.exited 1 [])).2 = (false, failMsg) ∧
    (runJob jW (RunEnv.excRaised [] "boom")).2 = (false, excMsg "boom") :=
  ⟨(run_completion_outcomes jW (RunEnv.exited 0 [])).2.2.2 [] rfl,
   (run_completion_outcomes jW (RunEnv.exited 1 [])).2.2.1 1 [] rfl (by decide),
   (run_completion_outcomes jW (RunEnv.excRaised [] "boom")).2.1 [] "boom" rfl⟩

/-- The resolution tier discount is positive. -/
lemma resFactor_pos (rc : ResChoice) : 0 < resFactor rc := by
  rcases rc with _ | _ | _ | _ | _ <;> norm_num [resFactor]

/-- Claim C7: with fixed source info, range, speed and resolution, re-encode
mode without explicit bitrate, the size estimate is non-increasing in the
quality value, and the estimate is exactly 0 whenever start equals end. -/
theorem estimate_monotone_quality (st : CutterState) (q1 q2 : ℕ) (hq : q1 ≤ q2)
    (hcopy : st.copyMode = false) (hbc : st.bitrateChecked = false)
    (hbr : 0 ≤ st.video_bitrate) :
    (∀ e1 e2, estimate_file_size { st with qualitySpin := q1 } = some e1 →
       estimate_file_size { st with qualitySpin := q2 } = some e2 → e2 ≤ e1) ∧
    (st.startSliderMs = st.endSliderMs → truthyStr st.video_path = true →
       st.video_bitrate ≠ 0 → estimate_file_size st = some 0) := by
  constructor
  · intro e1 e2 h1 h2
    unfold estimate_file_size at h1 h2
    simp only [hcopy, hbc, Bool.false_eq_true, if_false, ite_false] at h1 h2
    split_ifs at h1 h2 with hc hd
    · injection h1 with h1
      injection h2 with h2
      subst h1
      subst h2
      exact le_refl 0
    · injection h1 with h1
      injection h2 with h2
      subst h1
      subst h2
      have hq' : (q1 : ℚ) ≤ (q2 : ℚ) := by exact_mod_cast hq
      have hD : 0 ≤ max 0 (((st.endSliderMs : ℚ) / 1000 - (st.startSliderMs : ℚ) / 1000) /
          st.speedSpin) := le_max_left 0 _
      have hres := (resFactor_pos st.resolutionChoice).le
      have hkey : 0 ≤ st.video_bitrate * resFactor st.resolutionChoice *
          max 0 (((st.endSliderMs : ℚ) / 1000 - (st.startSliderMs : ℚ) / 1000) /
            st.speedSpin) * (((q2 : ℚ) - q1) * (7 / 510)) / 8 / 1024 := by
        apply div_nonneg _ (by norm_num)
        apply div_nonneg _ (by norm_num)
        apply mul_nonneg _ (by nlinarith)
        exact mul_nonneg (mul_nonneg hbr hres) hD
      nlinarith [hkey]
  · intro hse hpath hbne
    unfold estimate_file_size
    rw [hpath]
    have hcond : ¬ ((true : Bool) = false ∨ st.video_bitrate = 0) := by simp [hbne]
    rw [if_neg hcond, hse]
    simp

/-- A concrete 60-second re-encode job without explicit bitrate. -/
def stC7 : CutterState :=
  { video_path := some "in.mp4", video_bitrate := 8000,
    startSliderMs := 0, endSliderMs := 60000, copyMode := false,
    qualitySpin := 23, fpsChecked := false, fpsSpin := 60,
    bitrateChecked := false, bitrateSpin := 10000, speedSpin := 1,
    resolutionChoice := .original, gpuChoice := .cpu, outputFormat := "mp4" }

/-- Witness for C7: at 8000 kbps and 60 s, quality 51 estimates 1125/64 MB
against 1875/32 MB at quality 0, and a collapsed range estimates 0. -/
theorem estimate_monotone_quality_witness :
    (1125 / 64 : ℚ) ≤ 1875 / 32 ∧
    estimate_file_size { stC7 with startSliderMs := 60000 } = some 0 := by
  have h1 : estimate_file_size { stC7 with qualitySpin := 0 } = some (1875 / 32 : ℚ) := by
    simp [estimate_file_size, stC7, truthyStr, resFactor]
    norm_num
  have h2 : estimate_file_size { stC7 with qualitySpin := 51 } = some (1125 / 64 : ℚ) := by
    simp [estimate_file_size, stC7, truthyStr, resFactor]
    norm_num
  constructor
  · exact (estimate_monotone_quality stC7 0 51 (by norm_num) rfl rfl (by norm_num [stC7])).1
      _ _ h1 h2
  · exact (estimate_monotone_quality { stC7 with startSliderMs := 60000 } 0 0 le_rfl rfl rfl
      (by norm_num [stC7])).2 rfl rfl (by norm_num [stC7])

/-- Claim C10 (implicit): for a loaded source with positive bitrate, a
quality value in the widget range and a speed in the widget range, the size
estimate is never negative, and it is exactly 0 for every range with
end ≤ start, because the effective duration is clamped to
max(0, (end - start) / speed) before any bitrate multiplication. -/
theorem estimate_nonneg_clamped (st : CutterState)
    (hbr : 0 < st.video_bitrate) (hq : st.qualitySpin ≤ 51)
    (hsp : 1 / 2 ≤ st.speedSpin) :
    (∀ e, estimate_file_size st = some e → 0 ≤ e) ∧
    (st.endSliderMs ≤ st.startSliderMs → truthyStr st.video_path = true →
      estimate_file_size st = some 0) := by
  constructor
  · intro e he
    unfold estimate_file_size at he
    simp only [] at he
    split_ifs at he
    all_goals injection he with he
    all_goals subst he
    all_goals try exact le_refl 0
    all_goals apply div_nonneg _ (by norm_num)
    all_goals apply div_nonneg _ (by norm_num)
    all_goals first
      | exact mul_nonneg hbr.le (le_max_left 0 _)
      | exact mul_nonneg (mul_nonneg (Nat.cast_nonneg _) (resFactor_pos _).le)
          (le_max_left 0 _)
      | (refine mul_nonneg (mul_nonneg ?_ (resFactor_pos _).le) (le_max_left 0 _)
         have hq' : (st.qualitySpin : ℚ) ≤ 51 := by exact_mod_cast hq
         nlinarith)
  · intro hinv hpath
    unfold estimate_file_size
    rw [hpath]
    rw [if_neg (by simp [hbr.ne'])]
    have hsub : ((st.endSliderMs : ℚ) / 1000 - (st.startSliderMs : ℚ) / 1000) ≤ 0 := by
      have h' : (st.endSliderMs : ℚ) ≤ st.startSliderMs := by exact_mod_cast hinv
      linarith
    have hspeed : (0 : ℚ) < (if st.copyMode then 1 else st.speedSpin) := by
      split
      · norm_num
      · linarith
    have hdz : max 0 (((st.endSliderMs : ℚ) / 1000 - (st.startSliderMs : ℚ) / 1000) /
        (if st.copyMode then 1 else st.speedSpin)) = 0 := by
      apply max_eq_left
      exact div_nonpos_of_nonpos_of_nonneg hsub hspeed.le
    simp only []
    rw [hdz]
    simp

/-- A concrete job with an inverted cut range (start 20 s, end 10 s). -/
def stC10 : CutterState :=
  { video_path := some "in.mp4", video_bitrate := 8000,
    startSliderMs := 20000, endSliderMs := 10000, copyMode := false,
    qualitySpin := 23, fpsChecked := false, fpsSpin := 60,
    bitrateChecked := false, bitrateSpin := 10000, speedSpin := 1,
    resolutionChoice := .r720p, gpuChoice := .cpu, outputFormat := "mp4" }

/-- Witness for C10: the inverted range estimates exactly 0. -/
theorem estimate_nonneg_clamped_witness :
    estimate_file_size stC10 = some 0 :=
  (estimate_nonneg_clamped stC10 (by norm_num [stC10]) (by norm_num [stC10])
    (by norm_num [stC10])).2 (by norm_num [stC10]) rfl


/-- Fixed literal tokens the encoder-selection section can emit. -/
def encStrs : List String :=
  ["-c:v", "h264_nvenc", "-preset", "p4", "-rc", "constqp", "-qp", "0", "vbr", "-cq",
   "-b:v", "h264_amf", "-usage", "transcoding", "cqp", "-qp_i", "-qp_p", "h264_qsv",
   "medium", "-global_quality", "libx264", "-crf"]

/-- Token-shape check for the encoder-selection section. -/
def argOkEnc : Arg → Bool
  | .lit s => encStrs.contains s
  | .natOpt _ => true
  | _ => false

/-- Every encoder-section token is a known literal or a rendered quality. -/
lemma encoderArgs_ok (g : String) (q b : Option ℕ) :
    (encoderArgs g q b).all argOkEnc = true := by
  unfold encoderArgs
  repeat' split
  all_goals rfl

lemma lit_mem_encoderArgs {s : String} {g : String} {q b : Option ℕ}
    (h : Arg.lit s ∈ encoderArgs g q b) : encStrs.contains s = true := by
  have h2 := List.all_eq_true.mp (encoderArgs_ok g q b) _ h
  simpa [argOkEnc] using h2

lemma vfChain_not_mem_encoderArgs {fs : List VFilter} {g : String} {q b : Option ℕ}
    (h : Arg.vfChain fs ∈ encoderArgs g q b) : False := by
  have h2 := List.all_eq_true.mp (encoderArgs_ok g q b) _ h
  simp [argOkEnc] at h2

lemma atempo_not_mem_encoderArgs {x : ℚ} {g : String} {q b : Option ℕ}
    (h : Arg.atempoArg x ∈ encoderArgs g q b) : False := by
  have h2 := List.all_eq_true.mp (encoderArgs_ok g q b) _ h
  simp [argOkEnc] at h2

/-- Section decomposition of a planned re-encode argv: every token belongs
to a known section of the command. -/
lemma mem_planCompress_sections (st : CutterState) (out p : String)
    (hp : st.video_path = some p) (hpne : p ≠ "") (hone : out ≠ "")
    (hlt : st.startSliderMs < st.endSliderMs) (hcopy : st.copyMode = false)
    {cmd : List Arg} (h : planJob st out = some cmd) {a : Arg} (ha : a ∈ cmd) :
    a = .lit "ffmpeg.exe" ∨ a ∈ hwArgs (gpuString st.gpuChoice) ∨
    a = .lit "-ss" ∨ (∃ q, a = .ratNum q) ∨ a = .lit "-i" ∨ a = .lit p ∨ a = .lit "-t" ∨
    a ∈ encoderArgs (gpuString st.gpuChoice) (some st.qualitySpin)
        (if st.bitrateChecked then some st.bitrateSpin else none) ∨
    a ∈ bitrateArgs (if st.bitrateChecked then some st.bitrateSpin else none) ∨
    a ∈ vfArgs (resString st.resolutionChoice) st.speedSpin ∨
    a ∈ audioArgs st.speedSpin ∨
    a ∈ fpsArgs (if st.fpsChecked then some st.fpsSpin else none) ∨
    a = .lit "-y" ∨ a = .lit out := by
  rw [planJob_compress st out p hp hpne hone hlt hcopy] at h
  have hc := (Option.some.injEq _ _).mp h.symm
  subst hc
  rcases List.mem_append.mp ha with ha1 | h5
  case inr =>
    simp only [List.mem_cons, List.not_mem_nil, or_false] at h5
    tauto
  rcases List.mem_append.mp ha1 with ha2 | h4
  case inr =>
    rcases List.mem_append.mp h4 with h4a | hfps
    case inr => tauto
    rcases List.mem_append.mp h4a with h4b | haudio
    case inr => tauto
    rcases List.mem_append.mp h4b with h4c | hvf
    case inr => tauto
    rcases List.mem_append.mp h4c with henc | hbr <;> tauto
  rcases List.mem_append.mp ha2 with ha3 | h3
  case inr =>
    simp only [List.mem_cons, List.not_mem_nil, or_false] at h3
    rcases h3 with h' | h' | h' | h' | h' | h'
    · tauto
    · exact Or.inr (Or.inr (Or.inr (Or.inl ⟨_, h'⟩)))
    · tauto
    · tauto
    · tauto
    · exact Or.inr (Or.inr (Or.inr (Or.inl ⟨_, h'⟩)))
  rcases List.mem_append.mp ha3 with h1 | h2
  · simp only [List.mem_singleton] at h1
    tauto
  · tauto



/-- Claim C8: for every re-encode job, the video filter chain carried by the
combined filter token is the scale filter of the selected tier (widths
3840/2560/1920/1280, height -1 preserving aspect ratio) followed by the
presentation-timestamp scale of 1/speed when speed is not 1; the filter flag
appears iff at least one filter is present; a non-unit speed also emits the
audio tempo token equal to the speed, and unit speed emits no tempo token. -/
theorem reencode_filter_chain (st : CutterState) (out p : String)
    (hp : st.video_path = some p) (hcopy : st.copyMode = false)
    (hpne : p ≠ "") (hone : out ≠ "") (hlt : st.startSliderMs < st.endSliderMs)
    (hpv : p ≠ "-vf") (hov : out ≠ "-vf") :
    ∀ cmd, planJob st out = some cmd →
      (∀ fs, Arg.vfChain fs ∈ cmd →
        fs = (match st.resolutionChoice with
              | .original => []
              | .r4k => [VFilter.scale "3840:-1"]
              | .r2k => [VFilter.scale "2560:-1"]
              | .r1080p => [VFilter.scale "1920:-1"]
              | .r720p => [VFilter.scale "1280:-1"]) ++
             (if st.speedSpin ≠ 1 then [VFilter.setpts (1 / st.speedSpin)] else [])) ∧
      (Arg.lit "-vf" ∈ cmd ↔ (st.resolutionChoice ≠ .original ∨ st.speedSpin ≠ 1)) ∧
      (st.speedSpin ≠ 1 →
        ∃ l r, cmd = l ++ [Arg.lit "-af", Arg.atempoArg st.speedSpin] ++ r) ∧
      (st.speedSpin = 1 → ∀ x, Arg.atempoArg x ∉ cmd) := by
  intro cmd h
  refine ⟨?_, ⟨?_, ?_⟩, ?_, ?_⟩
  · intro fs hfs
    rcases mem_planCompress_sections st out p hp hpne hone hlt hcopy h hfs with
      h' | h' | h' | ⟨q, h'⟩ | h' | h' | h' | h' | h' | h' | h' | h' | h' | h'
    · exact Arg.noConfusion h'
    · rcases mem_hwArgs h' with h2 | h2 | h2 | h2 <;> exact Arg.noConfusion h2
    · exact Arg.noConfusion h'
    · exact Arg.noConfusion h'
    · exact Arg.noConfusion h'
    · exact Arg.noConfusion h'
    · exact Arg.noConfusion h'
    · exact (vfChain_not_mem_encoderArgs h').elim
    · rcases mem_bitrateArgs h' with h2 | h2 | h2 | ⟨n, h2⟩ <;> exact Arg.noConfusion h2
    · rcases mem_vfArgs h' with h2 | h2
      · exact Arg.noConfusion h2
      · injection h2 with h3
        subst h3
        rcases hrc : st.resolutionChoice with _ | _ | _ | _ | _ <;>
          simp [vfilterChain, resString]
    · rcases mem_audioArgs h' with h2 | h2 | h2 | h2 | h2 | h2 <;> exact Arg.noConfusion h2
    · rcases mem_fpsArgs h' with h2 | ⟨n, h2⟩ <;> exact Arg.noConfusion h2
    · exact Arg.noConfusion h'
    · exact Arg.noConfusion h'
  · intro hmem
    by_contra hcon
    push_neg at hcon
    obtain ⟨hrc, hsp⟩ := hcon
    rcases mem_planCompress_sections st out p hp hpne hone hlt hcopy h hmem with
      h' | h' | h' | ⟨q, h'⟩ | h' | h' | h' | h' | h' | h' | h' | h' | h' | h'
    · simp at h'
    · rcases mem_hwArgs h' with h2 | h2 | h2 | h2 <;> simp at h2
    · simp at h'
    · exact Arg.noConfusion h'
    · simp at h'
    · injection h' with h2
      exact hpv h2.symm
    · simp at h'
    · exact absurd (lit_mem_encoderArgs h') (by decide)
    · rcases mem_bitrateArgs h' with h2 | h2 | h2 | ⟨n, h2⟩ <;> simp at h2
    · rw [hrc, hsp] at h'
      simp [vfArgs, vfilterChain, resString] at h'
    · rcases mem_audioArgs h' with h2 | h2 | h2 | h2 | h2 | h2 <;> simp at h2
    · rcases mem_fpsArgs h' with h2 | ⟨n, h2⟩ <;> simp at h2
    · simp at h'
    · injection h' with h2
      exact hov h2.symm
  · intro hor
    rw [planJob_compress st out p hp hpne hone hlt hcopy] at h
    have hc := (Option.some.injEq _ _).mp h.symm
    subst hc
    have hne : vfilterChain (resString st.resolutionChoice) st.speedSpin ≠ [] := by
      intro hempty
      unfold vfilterChain at hempty
      rw [List.append_eq_nil] at hempty
      rcases hor with hrc | hsp
      · rcases hx : st.resolutionChoice with _ | _ | _ | _ | _
        · exact hrc hx
        all_goals (rw [hx] at hempty; simp [resString] at hempty)
      · have h2 := hempty.2
        simp [hsp] at h2
    have hin : Arg.lit "-vf" ∈ vfArgs (resString st.resolutionChoice) st.speedSpin := by
      simp [vfArgs, hne]
    simp only [List.mem_append]
    tauto
  · intro hsp
    rw [planJob_compress st out p hp hpne hone hlt hcopy] at h
    have hc := (Option.some.injEq _ _).mp h.symm
    subst hc
    refine ⟨[Arg.lit "ffmpeg.exe"] ++ hwArgs (gpuString st.gpuChoice) ++
        [.lit "-ss", .ratNum ((st.startSliderMs : ℚ) / 1000), .lit "-i", .lit p,
         .lit "-t", .ratNum ((st.endSliderMs : ℚ) / 1000 - (st.startSliderMs : ℚ) / 1000)] ++
        (encoderArgs (gpuString st.gpuChoice) (some st.qualitySpin)
            (if st.bitrateChecked then some st.bitrateSpin else none) ++
          bitrateArgs (if st.bitrateChecked then some st.bitrateSpin else none) ++
          vfArgs (resString st.resolutionChoice) st.speedSpin ++
          [.lit "-c:a", .lit "aac", .lit "-b:a", .lit "192k"]),
      fpsArgs (if st.fpsChecked then some st.fpsSpin else none) ++ [.lit "-y", .lit out], ?_⟩
    simp only [audioArgs, if_pos hsp]
    simp [List.append_assoc]
  · intro hsp x hmem
    rcases mem_planCompress_sections st out p hp hpne hone hlt hcopy h hmem with
      h' | h' | h' | ⟨q, h'⟩ | h' | h' | h' | h' | h' | h' | h' | h' | h' | h'
    · exact Arg.noConfusion h'
    · rcases mem_hwArgs h' with h2 | h2 | h2 | h2 <;> exact Arg.noConfusion h2
    · exact Arg.noConfusion h'
    · exact Arg.noConfusion h'
    · exact Arg.noConfusion h'
    · exact Arg.noConfusion h'
    · exact Arg.noConfusion h'
    · exact (atempo_not_mem_encoderArgs h').elim
    · rcases mem_bitrateArgs h' with h2 | h2 | h2 | ⟨n, h2⟩ <;> exact Arg.noConfusion h2
    · rcases mem_vfArgs h' with h2 | h2 <;> exact Arg.noConfusion h2
    · rw [hsp] at h'
      simp [audioArgs] at h'
    · rcases mem_fpsArgs h' with h2 | ⟨n, h2⟩ <;> exact Arg.noConfusion h2
    · exact Arg.noConfusion h'
    · exact Arg.noConfusion h'



/-- A concrete 1080p double-speed re-encode job. -/
def stC8 : CutterState :=
  { video_path := some "in.mp4", video_bitrate := 8000,
    startSliderMs := 10000, endSliderMs := 20000, copyMode := false,
    qualitySpin := 23, fpsChecked := false, fpsSpin := 60,
    bitrateChecked := false, bitrateSpin := 10000, speedSpin := 2,
    resolutionChoice := .r1080p, gpuChoice := .cpu, outputFormat := "mp4" }

/-- The argv planned for stC8. -/
def cmdC8 : List Arg :=
  [.lit "ffmpeg.exe", .lit "-ss", .ratNum 10, .lit "-i", .lit "in.mp4",
   .lit "-t", .ratNum 10, .lit "-c:v", .lit "libx264", .lit "-preset", .lit "medium",
   .lit "-crf", .natOpt (some 23),
   .lit "-vf", .vfChain [.scale "1920:-1", .setpts (1 / 2)],
   .lit "-c:a", .lit "aac", .lit "-b:a", .lit "192k",
   .lit "-af", .atempoArg 2, .lit "-y", .lit "out.mp4"]

/-- Concrete evaluation of the stC8 plan. -/
lemma planJob_stC8 : planJob stC8 "out.mp4" = some cmdC8 := by
  have h0 := planJob_compress stC8 "out.mp4" "in.mp4" rfl (by decide) (by decide) (by decide) rfl
  have e1 : ((stC8.startSliderMs : ℚ) / 1000) = 10 := by norm_num [stC8]
  have e2 : ((stC8.endSliderMs : ℚ) / 1000 - (stC8.startSliderMs : ℚ) / 1000) = 10 := by
    norm_num [stC8]
  rw [e2, e1] at h0
  rw [h0, cmdC8]
  simp [stC8, gpuString, resString, hwArgs, encoderArgs, bitrateArgs, vfArgs,
    vfilterChain, audioArgs, fpsArgs, truthyOpt]

/-- Witness for C8: speed 2 at 1080p carries the scale and the 0.5 timestamp
filter and the tempo token 2. -/
theorem reencode_filter_chain_witness :
    (∃ l r, cmdC8 = l ++ [Arg.lit "-af", Arg.atempoArg 2] ++ r) ∧
    Arg.lit "-vf" ∈ cmdC8 ∧
    Arg.vfChain [VFilter.scale "1920:-1", VFilter.setpts (1 / 2)] ∈ cmdC8 := by
  have hmain := reencode_filter_chain stC8 "out.mp4" "in.mp4" rfl rfl (by decide) (by decide)
    (by decide) (by decide) (by decide) cmdC8 planJob_stC8
  refine ⟨hmain.2.2.1 (by norm_num [stC8]), hmain.2.1.mpr (Or.inr (by norm_num [stC8])), ?_⟩
  simp [cmdC8]


/-- The four possible report lines for one vendor test. -/
lemma mem_vendorLine {a v : String} {r : ProcResult} (h : a ∈ vendorLine v r) :
    a = "✅ " ++ v ++ ": 支援 (可用)" ∨ a = "❌ " ++ v ++ ": 未偵測到對應硬體" ∨
    a = "❌ " ++ v ++ ": 測試未通過" ∨ a = "❌ " ++ v ++ ": 執行失敗" := by
  unfold vendorLine at h
  rcases r with ⟨rc, o, e⟩ | m
  · simp only [] at h
    split_ifs at h <;> simp at h <;> tauto
  · simp at h
    tauto

/-- A zero exit puts the success line in the vendor report. -/
lemma ok_mem_vendorLine_exited {v : String} {rc : ℤ} {o e : String}
    (h0 : rc = 0) : ("✅ " ++ v ++ ": 支援 (可用)") ∈ vendorLine v (.exited rc o e) := by
  simp [vendorLine, h0]

/-- NVIDIA is collected exactly when its test exits 0. -/
lemma mem_availableVendors_nvidia (env : ProbeEnv) :
    "NVIDIA" ∈ availableVendors env ↔ testOk env.nvidiaTest = true := by
  unfold availableVendors
  split_ifs <;> simp_all

/-- AMD is collected exactly when its test exits 0. -/
lemma mem_availableVendors_amd (env : ProbeEnv) :
    "AMD" ∈ availableVendors env ↔ testOk env.amdTest = true := by
  unfold availableVendors
  split_ifs <;> simp_all

/-- Intel is collected exactly when its test exits 0. -/
lemma mem_availableVendors_intel (env : ProbeEnv) :
    "Intel" ∈ availableVendors env ↔ testOk env.intelTest = true := by
  unfold availableVendors
  split_ifs <;> simp_all

/-- Claim C9: the probe classifies each of NVIDIA, AMD, Intel as available
(success line in the report) iff its synthetic encode exits 0; the
recommended default is the first of NVIDIA, AMD, Intel available, else CPU;
and per-vendor exceptions become report lines while the probe still returns
(the model is a total function), so errors never escape the call. -/
theorem gpu_probe_contract (env : ProbeEnv) :
    (("✅ NVIDIA: 支援 (可用)" ∈ vendorReport env) ↔ testOk env.nvidiaTest = true) ∧
    (("✅ AMD: 支援 (可用)" ∈ vendorReport env) ↔ testOk env.amdTest = true) ∧
    (("✅ Intel: 支援 (可用)" ∈ vendorReport env) ↔ testOk env.intelTest = true) ∧
    (gpuCheckReport env).2 =
      (if testOk env.nvidiaTest then "NVIDIA" else if testOk env.amdTest then "AMD"
       else if testOk env.intelTest then "Intel" else "CPU") ∧
    (∀ m, env.nvidiaTest = .excRaised m → "❌ NVIDIA: 執行失敗" ∈ (gpuCheckReport env).1) ∧
    (∀ m, env.amdTest = .excRaised m → "❌ AMD: 執行失敗" ∈ (gpuCheckReport env).1) ∧
    (∀ m, env.intelTest = .excRaised m → "❌ Intel: 執行失敗" ∈ (gpuCheckReport env).1) := by
  refine ⟨?_, ?_, ?_, ?_, ?_, ?_, ?_⟩
  · constructor
    · intro hmem
      unfold vendorReport at hmem
      rcases List.mem_append.mp hmem with hm | hm
      case inr => rcases mem_vendorLine hm with h' | h' | h' | h' <;> simp at h'
      rcases List.mem_append.mp hm with hm | hm
      case inr => rcases mem_vendorLine hm with h' | h' | h' | h' <;> simp at h'
      rcases mem_vendorLine hm with h' | h' | h' | h' <;> try simp at h'
      rcases hr : env.nvidiaTest with ⟨rc, o, e⟩ | m
      · rw [hr] at hm
        unfold vendorLine at hm
        simp only [] at hm
        split_ifs at hm with h0 <;> simp_all [testOk]
      · rw [hr] at hm
        simp [vendorLine] at hm
    · intro hok
      unfold vendorReport
      apply List.mem_append.mpr
      left
      apply List.mem_append.mpr
      left
      rcases hr : env.nvidiaTest with ⟨rc, o, e⟩ | m
      · rw [hr] at hok
        unfold testOk at hok
        exact ok_mem_vendorLine_exited (by exact_mod_cast beq_iff_eq.mp hok)
      · rw [hr] at hok
        simp [testOk] at hok
  · constructor
    · intro hmem
      unfold vendorReport at hmem
      rcases List.mem_append.mp hmem with hm | hm
      case inr => rcases mem_vendorLine hm with h' | h' | h' | h' <;> simp at h'
      rcases List.mem_append.mp hm with hm | hm
      case inl => rcases mem_vendorLine hm with h' | h' | h' | h' <;> simp at h'
      rcases hr : env.amdTest with ⟨rc, o, e⟩ | m
      · rw [hr] at hm
        unfold vendorLine at hm
        simp only [] at hm
        split_ifs at hm with h0 <;> simp_all [testOk]
      · rw [hr] at hm
        simp [vendorLine] at hm
    · intro hok
      unfold vendorReport
      apply List.mem_append.mpr
      left
      apply List.mem_append.mpr
      right
      rcases hr : env.amdTest with ⟨rc, o, e⟩ | m
      · rw [hr] at hok
        unfold testOk at hok
        exact ok_mem_vendorLine_exited (by exact_mod_cast beq_iff_eq.mp hok)
      · rw [hr] at hok
        simp [testOk] at hok
  · constructor
    · intro hmem
      unfold vendorReport at hmem
      rcases List.mem_append.mp hmem with hm | hm
      case inr =>
        rcases hr : env.intelTest with ⟨rc, o, e⟩ | m
        · rw [hr] at hm
          unfold vendorLine at hm
          simp only [] at hm
          split_ifs at hm with h0 <;> simp_all [testOk]
        · rw [hr] at hm
          simp [vendorLine] at hm
      rcases List.mem_append.mp hm with hm | hm <;>
        (rcases mem_vendorLine hm with h' | h' | h' | h' <;> simp at h')
    · intro hok
      unfold vendorReport
      apply List.mem_append.mpr
      right
      rcases hr : env.intelTest with ⟨rc, o, e⟩ | m
      · rw [hr] at hok
        unfold testOk at hok
        exact ok_mem_vendorLine_exited (by exact_mod_cast beq_iff_eq.mp hok)
      · rw [hr] at hok
        simp [testOk] at hok
  · show recVendor env = _
    simp only [recVendor, mem_availableVendors_nvidia, mem_availableVendors_amd,
      mem_availableVendors_intel]
  · intro m hm
    simp [gpuCheckReport, vendorReport, vendorLine, hm]
  · intro m hm
    simp [gpuCheckReport, vendorReport, vendorLine, hm]
  · intro m hm
    simp [gpuCheckReport, vendorReport, vendorLine, hm]



/-- A concrete probe environment: NVIDIA test raises, AMD succeeds, Intel
fails with a missing-device diagnostic. -/
def envC9 : ProbeEnv :=
  { hwQuery := .exited 0 "GPU One\n" "", ffmpegFound := true, ffmpegDir := "C:\\tools",
    nvidiaTest := .excRaised "tool missing",
    amdTest := .exited 0 "" "",
    intelTest := .exited 1 "" "x device not found y" }

/-- Witness for C9: the concrete probe recommends AMD and reports the NVIDIA
execution failure. -/
theorem gpu_probe_contract_witness :
    (gpuCheckReport envC9).2 = "AMD" ∧
    "❌ NVIDIA: 執行失敗" ∈ (gpuCheckReport envC9).1 ∧
    "✅ AMD: 支援 (可用)" ∈ vendorReport envC9 := by
  have h := gpu_probe_contract envC9
  refine ⟨?_, h.2.2.2.2.1 "tool missing" rfl, h.2.1.mpr (by decide)⟩
  rw [h.2.2.2.1]
  rfl

end VC
